import Mathlib

/-
  Verification of the applier tutorial renderer against its specification.

  The development shallowly embeds the render-side logic of the tutorial
  plugins (src/beginner/tutorial2-surface, tutorial8-depth-buffer,
  tutorial9-models) in Lean: pure data marshalling becomes Lean functions,
  per-frame systems become explicit state-passing functions, Rust panics
  (`expect` / `unwrap` / out-of-bounds indexing) become an explicit `panic`
  outcome, and fallible operations return `Except` / `Option`.

  Floating point: every float value a claim inspects (grid coordinates built
  from small integers, the 0.5-scaled displacement, the 3.0 spacing, the 0.3
  clear-color constant) is exactly representable in f32/f64 and the involved
  operations (add, sub, mul by 3, small-integer arithmetic) are exact on
  them, so the embedding uses exact rationals. Quantities that are genuinely
  irrational (normalized axes, quaternion matrix entries) are kept symbolic:
  the embedding records the exact expression the source builds instead of
  its float approximation.
-/

namespace Applier

/-- Exact 3-vector standing for cgmath::Vector3 of f32 components. -/
structure Vec3 where
  x : ℚ
  y : ℚ
  z : ℚ
  deriving DecidableEq, Repr

/-- Componentwise subtraction, cgmath's Sub for Vector3. -/
def Vec3.sub (a b : Vec3) : Vec3 := ⟨a.x - b.x, a.y - b.y, a.z - b.z⟩

/-- Scalar multiplication, cgmath's f32 * Vector3. -/
def Vec3.smul (c : ℚ) (v : Vec3) : Vec3 := ⟨c * v.x, c * v.y, c * v.z⟩

/-- The zero vector. -/
def Vec3.zero : Vec3 := ⟨0, 0, 0⟩

/-- cgmath's Zero::is_zero for Vector3: exact componentwise comparison
with zero. -/
def Vec3.isZero (v : Vec3) : Bool := decide (v = Vec3.zero)

/-- A cgmath quaternion, kept as the exact expression the source builds it
from (the numeric components of an axis-angle quaternion are irrational in
general, so the embedding records which constructor ran and with which
arguments; distinct expressions of interest to the claims are distinct). -/
inductive Rotation where
  /-- Quaternion::from_axis_angle(Vector3::unit_y(), Deg deg). With deg = 0
  this is the identity (zero-rotation) quaternion. -/
  | fromAxisAngleUnitY (deg : ℚ)
  /-- Quaternion::from_axis_angle(v.normalize(), Deg deg): rotation about
  the normalized position axis. -/
  | fromAxisAngleNormalized (v : Vec3) (deg : ℚ)
  /-- Quaternion::new(w, x, y, z), used by extract_mesh_entities. -/
  | quatNew (w x y z : ℚ)
  deriving DecidableEq, Repr

/-- An Instance of tutorial8/tutorial9: a position plus a rotation. -/
structure Instance where
  position : Vec3
  rotation : Rotation
  deriving DecidableEq, Repr

/-- InstanceRaw is the 4x4 model matrix
Matrix4::from_translation(position) * Matrix4::from(rotation). Its float
entries are irrational in general, so the embedding keeps the pair that
uniquely determines the matrix. -/
structure InstanceRaw where
  position : Vec3
  rotation : Rotation
  deriving DecidableEq, Repr

/-- Instance::to_raw from tutorial9's plugin.rs. -/
def Instance.toRaw (i : Instance) : InstanceRaw := ⟨i.position, i.rotation⟩

/-- NUM_INSTANCES_PER_ROW from tutorial8/tutorial9. -/
def NUM_INSTANCES_PER_ROW : ℕ := 10

/-- INSTANCE_DISPLACEMENT = Vector3::new(NUM * 0.5, 0.0, NUM * 0.5),
shared by tutorial8 and tutorial9. -/
def INSTANCE_DISPLACEMENT : Vec3 :=
  ⟨(NUM_INSTANCES_PER_ROW : ℚ) * (1 / 2), 0, (NUM_INSTANCES_PER_ROW : ℚ) * (1 / 2)⟩

/-- SPACE_BETWEEN = 3.0 from tutorial9. -/
def SPACE_BETWEEN : ℚ := 3

/-- Instances::from_world of tutorial9-models: a 10 x 10 grid, outer
flat_map over z, inner map over x, position
SPACE_BETWEEN * Vector3::new(x, 0, z) - INSTANCE_DISPLACEMENT,
rotation the identity quaternion when the position is exactly zero and a
45-degree rotation about the normalized position otherwise. -/
def instancesFromWorld9 : List Instance :=
  (List.range NUM_INSTANCES_PER_ROW).flatMap (fun z =>
    (List.range NUM_INSTANCES_PER_ROW).map (fun x =>
      let position :=
        Vec3.sub (Vec3.smul SPACE_BETWEEN ⟨(x : ℚ), 0, (z : ℚ)⟩) INSTANCE_DISPLACEMENT
      let rotation :=
        if position.isZero then Rotation.fromAxisAngleUnitY 0
        else Rotation.fromAxisAngleNormalized position 45
      { position := position, rotation := rotation }))

/-- Instances::from_world of tutorial8-depth-buffer: identical to
tutorial9's grid but with unit spacing, position
Vector3::new(x, 0, z) - INSTANCE_DISPLACEMENT. -/
def instancesFromWorld8 : List Instance :=
  (List.range NUM_INSTANCES_PER_ROW).flatMap (fun z =>
    (List.range NUM_INSTANCES_PER_ROW).map (fun x =>
      let position := Vec3.sub ⟨(x : ℚ), 0, (z : ℚ)⟩ INSTANCE_DISPLACEMENT
      let rotation :=
        if position.isZero then Rotation.fromAxisAngleUnitY 0
        else Rotation.fromAxisAngleNormalized position 45
      { position := position, rotation := rotation }))

/-- An asset handle (Handle of ApplierMesh): identified by a stable id. -/
abbrev Handle := ℕ

/-- HashMap::contains_key over the association-list model of a hash map.
The list order models the map's iteration order. -/
def containsKey {α : Type} (m : List (Handle × α)) (h : Handle) : Bool :=
  m.any (fun p => decide (p.1 = h))

/-- HashMap::get: the value stored under a key (keys are unique: entries
are only ever inserted after a contains_key check). -/
def findVal {α : Type} : List (Handle × α) → Handle → Option α
  | [], _ => none
  | (k, v) :: rest, h => if k = h then some v else findVal rest h

/-- HashMap::get_mut followed by an in-place update: rewrites the entry
stored under the key, leaving every other entry in place. -/
def modifyFirst {α : Type} : List (Handle × α) → Handle → (α → α) → List (Handle × α)
  | [], _, _ => []
  | (k, v) :: rest, h, f =>
    if k = h then (k, f v) :: rest else (k, v) :: modifyFirst rest h f

/-- The simulation-side bevy Transform, restricted to the fields
extract_mesh_entities reads: the translation vector and the rotation
quaternion components. -/
structure Transform where
  translation : Vec3
  rotW : ℚ
  rotX : ℚ
  rotY : ℚ
  rotZ : ℚ
  deriving DecidableEq, Repr

/-- The Instance built by extract_mesh_entities from one entity:
position Vector3::new(t.x, t.y, t.z) and rotation
Quaternion::new(r.w, r.x, r.y, r.z). -/
def mkExtractedInstance (t : Transform) : Instance :=
  ⟨t.translation, Rotation.quatNew t.rotW t.rotX t.rotY t.rotZ⟩

/-- One iteration of the query loop in extract_mesh_entities: insert an
empty list for an unseen mesh handle, then push this entity's instance
onto the list stored under its handle. -/
def extractStep (m : List (Handle × List Instance)) (e : Handle × Transform) :
    List (Handle × List Instance) :=
  modifyFirst (if containsKey m e.1 then m else m ++ [(e.1, [])]) e.1
    (fun v => v ++ [mkExtractedInstance e.2])

/-- extract_mesh_entities from tutorial9: fold the query results
(mesh handle, transform) into a fresh per-mesh instance map, which then
replaces MeshInstances wholesale. -/
def extractMeshEntities (entities : List (Handle × Transform)) :
    List (Handle × List Instance) :=
  entities.foldl extractStep []

/-- Total number of instances stored across all meshes of a per-mesh map. -/
def totalInstances (m : List (Handle × List Instance)) : ℕ :=
  (m.map (fun p => p.2.length)).sum

/-- The instance list grouped under a mesh handle (empty when the handle
is absent from the map). -/
def instsOf (m : List (Handle × List Instance)) (h : Handle) : List Instance :=
  (findVal m h).getD []

/-- Outcome of running Rust code that can panic: either a panic with the
panic message, or a normal value. -/
inductive PanicOr (α : Type) where
  | panic (msg : String)
  | ok (val : α)
  deriving DecidableEq, Repr

/-- The Vertex record of the mesh module: position x3 f32, tex_coords x2
f32. -/
structure Vertex where
  position : Vec3
  texCoords : ℚ × ℚ
  deriving DecidableEq, Repr

/-- RawBufferVec: CPU-side staging values plus the optional device buffer.
The device buffer is none until the first non-empty write_buffer call. -/
structure RawBuffer (α : Type) where
  data : List α
  buffer : Option (List α)
  deriving DecidableEq, Repr

/-- RawBufferVec::new: empty staging values, no device buffer. -/
def RawBuffer.empty {α : Type} : RawBuffer α := ⟨[], none⟩

/-- RawBufferVec::write_buffer: mirrors the CPU values to the device
buffer; with empty CPU values it returns early and leaves any previously
written device buffer untouched. -/
def RawBuffer.writeBuffer {α : Type} (b : RawBuffer α) : RawBuffer α :=
  if b.data.isEmpty then b else { b with buffer := some b.data }

/-- RawBufferVec::len: the number of CPU-side values. -/
def RawBuffer.len {α : Type} (b : RawBuffer α) : ℕ := b.data.length

/-- ApplierGpuMesh: the vertex and index buffers of one prepared mesh
asset. -/
structure ApplierGpuMesh where
  vertexBuffer : RawBuffer Vertex
  indexBuffer : RawBuffer ℕ
  deriving DecidableEq, Repr

/-- A wgpu double-precision color. -/
structure Color where
  r : ℚ
  g : ℚ
  b : ℚ
  a : ℚ
  deriving DecidableEq, Repr

/-- The clear color of tutorial9's SurfaceNode::run:
r = mouse.x / width, g = mouse.y / height,
b = (width - mouse.x) / width, a = 1. -/
def clearColor9 (mouseX mouseY : ℚ) (width height : ℕ) : Color :=
  ⟨mouseX / (width : ℚ), mouseY / (height : ℚ),
   ((width : ℚ) - mouseX) / (width : ℚ), 1⟩

/-- The clear color of tutorial2's SurfaceNode::run: same r and g, but
b is the constant 0.3. -/
def clearColor2 (mouseX mouseY : ℚ) (width height : ℕ) : Color :=
  ⟨mouseX / (width : ℚ), mouseY / (height : ℚ), 3 / 10, 1⟩

/-- One extracted window: whether a swap-chain texture view is available
this frame, and the physical size. -/
structure Window where
  hasView : Bool
  physicalWidth : ℕ
  physicalHeight : ℕ
  deriving DecidableEq, Repr

/-- The draw_indexed call issued by tutorial9's surface node:
indices 0..index_buffer.len(), instances 0..instance_buffer.len(). -/
structure DrawCall where
  meshHandle : Handle
  indexCount : ℕ
  instanceCount : ℕ
  deriving DecidableEq, Repr

/-- One render pass begun by the surface node: its clear color, and the
draw call issued inside it (none when the pipeline is still compiling). -/
structure Pass where
  clear : Color
  draw : Option DrawCall
  deriving DecidableEq, Repr

/-- The window loop of tutorial9's SurfaceNode::run. Windows without a
swap-chain view are skipped. For a window with a view a pass is begun with
the computed clear color; if the cached pipeline is ready the pass binds
the vertex, instance and index buffers - each bound through
RawBufferVec::buffer().expect("buffer was not set"), which panics when the
device buffer was never written - and issues the indexed draw. -/
def runWindows (mouse : ℚ × ℚ) (pipelineReady : Bool) (meshHandle : Handle)
    (gpu : ApplierGpuMesh) (instanceBuffer : RawBuffer InstanceRaw) :
    List Window → PanicOr (List Pass)
  | [] => .ok []
  | win :: rest =>
    if win.hasView then
      if pipelineReady then
        match gpu.vertexBuffer.buffer with
        | none => .panic "buffer was not set"
        | some _ =>
          match instanceBuffer.buffer with
          | none => .panic "buffer was not set"
          | some _ =>
            match gpu.indexBuffer.buffer with
            | none => .panic "buffer was not set"
            | some _ =>
              match runWindows mouse pipelineReady meshHandle gpu instanceBuffer rest with
              | .panic msg => .panic msg
              | .ok passes =>
                .ok ({ clear := clearColor9 mouse.1 mouse.2 win.physicalWidth
                         win.physicalHeight,
                       draw := some ⟨meshHandle, gpu.indexBuffer.len, instanceBuffer.len⟩ }
                     :: passes)
      else
        match runWindows mouse pipelineReady meshHandle gpu instanceBuffer rest with
        | .panic msg => .panic msg
        | .ok passes =>
          .ok ({ clear := clearColor9 mouse.1 mouse.2 win.physicalWidth win.physicalHeight,
                 draw := none } :: passes)
    else runWindows mouse pipelineReady meshHandle gpu instanceBuffer rest

/-- The render-side state tutorial9's SurfaceNode::run reads from the
world: the extracted windows, the extracted mouse position, whether the
cached render pipeline finished compiling, the per-mesh instance-buffer
map (in iteration order), and the prepared GPU mesh assets. -/
structure SurfaceWorld where
  windows : List Window
  mousePosition : ℚ × ℚ
  pipelineReady : Bool
  instanceBuffers : List (Handle × RawBuffer InstanceRaw)
  renderAssets : List (Handle × ApplierGpuMesh)
  deriving DecidableEq, Repr

/-- SurfaceNode::run of tutorial9-models. It takes the LAST entry of the
instance-buffer map iteration (instance_buffers.0.iter().last()),
returning Ok without drawing when the map is empty or when that mesh's
GPU asset is not prepared, then runs the window loop. -/
def surfaceNodeRun (w : SurfaceWorld) : PanicOr (List Pass) :=
  match w.instanceBuffers.getLast? with
  | none => .ok []
  | some (meshHandle, instanceBuffer) =>
    match findVal w.renderAssets meshHandle with
    | none => .ok []
    | some gpu =>
      runWindows w.mousePosition w.pipelineReady meshHandle gpu instanceBuffer w.windows

/-- SurfaceNode::run of tutorial2-surface: for each window with a view,
begin a pass that only clears with the tutorial2 color; always Ok. -/
def surfaceNodeRun2 (mouse : ℚ × ℚ) (windows : List Window) : List Color :=
  windows.filterMap (fun win =>
    if win.hasView then
      some (clearColor2 mouse.1 mouse.2 win.physicalWidth win.physicalHeight)
    else none)

/-- The error type of a render-graph node run. -/
inductive NodeRunError where
  | runSubGraphError (code : ℕ)
  deriving DecidableEq, Repr

/-- The arguments of a RenderGraphContext::run_sub_graph call: the
subgraph label, the input slot values, and the optional view entity. -/
structure SubgraphCall where
  subgraph : String
  inputs : List ℕ
  view : Option ℕ
  deriving DecidableEq, Repr

/-- ExecuteNode::run (identical in tutorial2 and tutorial9): invoke
run_sub_graph(ApplierSubgraph, vec![], None) and propagate its error with
the question-mark operator. -/
def executeNodeRun (runSub : SubgraphCall → Except NodeRunError Unit) :
    Except NodeRunError Unit :=
  match runSub ⟨"ApplierSubgraph", [], none⟩ with
  | .error e => .error e
  | .ok _ => .ok ()

/-- One iteration of the per-mesh loop of tutorial9's prepare_buffers:
insert a fresh RawBufferVec for an unseen handle, then clear the buffer,
extend it with the instances' raw matrices, and write it to the device. -/
def prepareBuffersStep (bufs : List (Handle × RawBuffer InstanceRaw))
    (hi : Handle × List Instance) : List (Handle × RawBuffer InstanceRaw) :=
  let bufs1 := if containsKey bufs hi.1 then bufs else bufs ++ [(hi.1, RawBuffer.empty)]
  modifyFirst bufs1 hi.1 (fun b =>
    RawBuffer.writeBuffer { b with data := hi.2.map Instance.toRaw })

/-- The per-mesh instance-buffer portion of tutorial9's prepare_buffers:
fold the extracted MeshInstances into the persistent InstanceBuffers map.
Handles absent from this frame's MeshInstances are left untouched (the
source marks the missing cleanup with a TODO comment). -/
def prepareBuffers (meshInstances : List (Handle × List Instance))
    (instanceBuffers : List (Handle × RawBuffer InstanceRaw)) :
    List (Handle × RawBuffer InstanceRaw) :=
  meshInstances.foldl prepareBuffersStep instanceBuffers

/-- A constructed wgpu bind group object. -/
inductive BindGroup where
  | group
  deriving DecidableEq, Repr

/-- The render-side state tutorial9's prepare_bind_groups system touches:
whether the material's GPU image (texture and sampler) is resident,
whether the camera uniform device buffer has been written, the cached
PreparedApplierMaterial and PreparedCamera resources, and how many times
each bind group has been constructed so far. -/
structure RenderState where
  textureResident : Bool
  cameraBufferReady : Bool
  preparedMaterial : Option BindGroup
  preparedCamera : Option BindGroup
  materialBuildCount : ℕ
  cameraBuildCount : ℕ
  deriving DecidableEq, Repr

/-- AsBindGroup::as_bind_group for ApplierMaterial: succeeds exactly when
the referenced image's GPU texture and sampler are resident on the device,
and otherwise returns Err(AsBindGroupError::RetryNextUpdate). -/
def asBindGroup (textureResident : Bool) : Except Unit BindGroup :=
  if textureResident then .ok .group else .error ()

/-- CameraBuffer::bind_group: calls self.buf.buffer().unwrap(), panicking
when the camera uniform buffer has not been written to the device yet. -/
def cameraBindGroup (cameraBufferReady : Bool) : PanicOr BindGroup :=
  if cameraBufferReady then .ok .group
  else .panic "called Option::unwrap on a None value"

/-- prepare_bind_groups of tutorial9-models: if no PreparedApplierMaterial
resource exists, build the material bind group - unwrapping the
as_bind_group result with expect("failed to prepare bind group") - and
insert the prepared resource; then, if no PreparedCamera resource exists,
build and insert the camera bind group. -/
def prepareBindGroups (s : RenderState) : PanicOr RenderState :=
  let afterMaterial : PanicOr RenderState :=
    if s.preparedMaterial.isNone then
      match asBindGroup s.textureResident with
      | .error _ => .panic "failed to prepare bind group"
      | .ok bg =>
        .ok { s with preparedMaterial := some bg,
                     materialBuildCount := s.materialBuildCount + 1 }
    else .ok s
  match afterMaterial with
  | .panic msg => .panic msg
  | .ok s1 =>
    if s1.preparedCamera.isNone then
      match cameraBindGroup s1.cameraBufferReady with
      | .panic msg => .panic msg
      | .ok bg =>
        .ok { s1 with preparedCamera := some bg,
                      cameraBuildCount := s1.cameraBuildCount + 1 }
    else .ok s1

/-- Modelled from the spec: the GpuBufferStage upload contract of section
4.1. The device-write semantics live in the host engine's RawBufferVec /
DynamicUniformBuffer (outside this repository); the spec abstracts them as
a stage owning CPU staging contents and a device buffer, whose upload
mirrors staging to the device, reallocates when capacity is insufficient,
counts device writes, and is a no-op when staging is unchanged since the
last upload. -/
structure GpuBufferStage (T : Type) where
  staging : List T
  deviceContents : Option (List T)
  deviceCapacity : ℕ
  lastUploaded : Option (List T)
  writeCount : ℕ
  deriving DecidableEq, Repr

/-- Modelled from the spec: upload(device, queue) of GpuBufferStage
(section 4.1): a no-op when staging is unchanged since the last upload,
otherwise one device write that mirrors staging into the device buffer,
growing its capacity when insufficient. -/
def GpuBufferStage.upload {T : Type} [DecidableEq T] (s : GpuBufferStage T) :
    GpuBufferStage T :=
  if s.lastUploaded = some s.staging then s
  else
    { staging := s.staging,
      deviceContents := some s.staging,
      deviceCapacity := max s.deviceCapacity s.staging.length,
      lastUploaded := some s.staging,
      writeCount := s.writeCount + 1 }

/-- The mesh data of one tobj model: flat positions (3 per vertex), flat
texcoords (2 per vertex), and the triangle index list. -/
structure TobjMesh where
  positions : List ℚ
  texcoords : List ℚ
  indices : List ℕ
  deriving DecidableEq, Repr

/-- One tobj model (sub-mesh). -/
structure TobjModel where
  mesh : TobjMesh
  deriving DecidableEq, Repr

/-- An input byte stream to ApplierMeshLoader::load, abstracted through
the two external stages the source pipes it through: reader.read_to_end
(unreadable stream fails it) and tobj::load_obj_buf (malformed stream
fails it; success yields the model list). -/
inductive LoadInput where
  | unreadable
  | parseError
  | parsed (models : List TobjModel)
  deriving DecidableEq, Repr

/-- The single error of ApplierMeshLoader. -/
inductive ApplierMeshLoaderError where
  | Failed
  deriving DecidableEq, Repr

/-- The loaded mesh asset: vertex records plus the index list. -/
structure ApplierMesh where
  vertices : List Vertex
  indices : List ℕ
  deriving DecidableEq, Repr

/-- The vertex-building loop of ApplierMeshLoader::load over
i in 0..positions.len()/3: reads positions[3i..3i+2] and, when
2i < texcoords.len(), texcoords[2i] and texcoords[2i+1]; a Rust index out
of bounds is a panic (reachable only if the parser hands back an
odd-length texcoord array). -/
def buildVertices (positions texcoords : List ℚ) : List ℕ → PanicOr (List Vertex)
  | [] => .ok []
  | i :: rest =>
    let posIdx := i * 3
    let texIdx := i * 2
    if posIdx + 2 < positions.length then
      let tex : PanicOr (ℚ × ℚ) :=
        if texIdx < texcoords.length then
          if texIdx + 1 < texcoords.length then
            .ok (texcoords.getD texIdx 0, texcoords.getD (texIdx + 1) 0)
          else .panic "index out of bounds"
        else .ok (0, 0)
      match tex with
      | .panic msg => .panic msg
      | .ok t =>
        match buildVertices positions texcoords rest with
        | .panic msg => .panic msg
        | .ok vs =>
          .ok (⟨⟨positions.getD posIdx 0, positions.getD (posIdx + 1) 0,
                 positions.getD (posIdx + 2) 0⟩, t⟩ :: vs)
    else .panic "index out of bounds"

/-- ApplierMeshLoader::load: any read failure or parse failure becomes the
single ApplierMeshLoaderError::Failed; on success the FIRST model of the
parse is converted (positions.len()/3 vertex records plus its index
list) and every remaining model is ignored; an empty model list is also
Failed. -/
def ApplierMeshLoader.load (input : LoadInput) :
    PanicOr (Except ApplierMeshLoaderError ApplierMesh) :=
  match input with
  | .unreadable => .ok (.error .Failed)
  | .parseError => .ok (.error .Failed)
  | .parsed [] => .ok (.error .Failed)
  | .parsed (model :: _) =>
    match buildVertices model.mesh.positions model.mesh.texcoords
        (List.range (model.mesh.positions.length / 3)) with
    | .panic msg => .panic msg
    | .ok vs => .ok (.ok ⟨vs, model.mesh.indices⟩)

/-- A sample vertex. -/
def vertexEx : Vertex := ⟨⟨0, 0, 0⟩, (0, 0)⟩

/-- A sample raw instance matrix. -/
def rawEx : InstanceRaw := ⟨⟨0, 0, 0⟩, Rotation.fromAxisAngleUnitY 0⟩

/-- A fully uploaded GPU mesh with three indices. -/
def gpuMeshReady : ApplierGpuMesh :=
  ⟨⟨[vertexEx], some [vertexEx]⟩, ⟨[0, 1, 2], some [0, 1, 2]⟩⟩

/-- A frame whose sole per-mesh instance buffer has CPU contents but was
never written to the device. -/
def worldUnreadyInstanceBuffer : SurfaceWorld :=
  ⟨[⟨true, 10, 10⟩], (0, 0), true, [(0, ⟨[rawEx], none⟩)], [(0, gpuMeshReady)]⟩

/-- A frame whose drawn mesh has a never-uploaded vertex buffer. -/
def worldUnreadyVertexBuffer : SurfaceWorld :=
  ⟨[⟨true, 8, 6⟩], (1, 2), true, [(7, ⟨[rawEx], some [rawEx]⟩)],
   [(7, ⟨⟨[vertexEx], none⟩, ⟨[0, 1, 2], some [0, 1, 2]⟩⟩)]⟩

/-- The instance-buffer map left behind by a frame that extracted no
entities: prepare_buffers iterates an empty MeshInstances and touches
nothing, keeping the previous frame's buffer for mesh 0 alive. -/
def staleInstanceBuffers : List (Handle × RawBuffer InstanceRaw) :=
  prepareBuffers [] [(0, ⟨[rawEx], some [rawEx]⟩)]

/-- A frame with zero extracted entities but a stale instance buffer from
an earlier frame. -/
def worldEmptyFrameStale : SurfaceWorld :=
  ⟨[⟨true, 10, 10⟩], (0, 0), true, staleInstanceBuffers, [(0, gpuMeshReady)]⟩

/-- A frame in which no window has a swap-chain view. -/
def worldNoViews : SurfaceWorld :=
  ⟨[⟨false, 800, 600⟩, ⟨false, 1, 1⟩], (5, 5), true,
   [(0, ⟨[rawEx], some [rawEx]⟩)], [(0, gpuMeshReady)]⟩

/-- A subgraph runner that fails, to observe error propagation. -/
def subgraphRunEx : SubgraphCall → Except NodeRunError Unit :=
  fun c => Except.error (NodeRunError.runSubGraphError c.inputs.length)

/-- A frame with instance buffers for two different meshes; only the last
map entry (mesh 2) can be drawn. -/
def worldTwoMeshes : SurfaceWorld :=
  ⟨[⟨true, 10, 10⟩], (0, 0), true,
   [(1, ⟨[rawEx], some [rawEx]⟩), (2, ⟨[rawEx, rawEx], some [rawEx, rawEx]⟩)],
   [(2, gpuMeshReady)]⟩

/-- A sample buffer stage holding three staged values, never uploaded. -/
def stageEx : GpuBufferStage ℕ := ⟨[1, 2, 3], none, 0, none, 0⟩

/-- Sample extracted entities: two meshes, three entities. -/
def entitiesEx : List (Handle × Transform) :=
  [(0, ⟨⟨1, 2, 3⟩, 1, 0, 0, 0⟩), (1, ⟨⟨4, 5, 6⟩, 0, 1, 0, 0⟩),
   (0, ⟨⟨7, 8, 9⟩, 0, 0, 1, 0⟩)]

/-- C4 counterexample: in tutorial9's 3.0-unit-spacing grid no instance
has position equal to the zero vector (each coordinate is 3k - 5 for an
integer 0 <= k <= 9), so the grid has no instance at the claimed exact
center; in particular the middle grid cell (x=5, z=5) sits at (10, 0, 10)
and receives the 45-degree normalized-axis rotation, not the zero-rotation
default. -/
theorem c4_instance_grid_counterexample :
    instancesFromWorld9.countP (fun i => decide (i.position = Vec3.zero)) = 0 ∧
    instancesFromWorld9[55]? =
      some ⟨⟨10, 0, 10⟩, Rotation.fromAxisAngleNormalized ⟨10, 0, 10⟩ 45⟩ :=
  ⟨by with_unfolding_all rfl, by with_unfolding_all rfl⟩

/-- C4 (amended): tutorial9's 10 x 10 = 100-instance grid with 3.0-unit
spacing places grid cell (x=0, z=0) exactly at the displacement-centered
origin, minus INSTANCE_DISPLACEMENT = (-5, 0, -5); in that grid no
instance has position equal to the zero vector, so the zero-rotation guard
never fires there; the guard is exercised in tutorial8's unit-spacing
grid, whose cell (x=5, z=5) has position exactly zero and is the unique
instance receiving the zero-rotation default quaternion rather than a
rotation about its normalized position axis. -/
theorem c4_instance_grid :
    instancesFromWorld9.length = 100 ∧
    instancesFromWorld9.head?.map Instance.position =
      some (Vec3.sub (Vec3.smul SPACE_BETWEEN ⟨0, 0, 0⟩) INSTANCE_DISPLACEMENT) ∧
    instancesFromWorld9.head?.map Instance.position = some ⟨-5, 0, -5⟩ ∧
    instancesFromWorld8.length = 100 ∧
    instancesFromWorld8[55]? = some ⟨⟨0, 0, 0⟩, Rotation.fromAxisAngleUnitY 0⟩ ∧
    instancesFromWorld8.countP
      (fun i => decide (i.rotation = Rotation.fromAxisAngleUnitY 0)) = 1 :=
  ⟨by with_unfolding_all rfl, by with_unfolding_all rfl, by with_unfolding_all rfl,
   by with_unfolding_all rfl, by with_unfolding_all rfl, by with_unfolding_all rfl⟩

/-- C3: upload is idempotent with respect to unchanged staging contents:
a second upload with the staging unchanged since the first is a no-op and
performs no further device write, and the pair of calls writes at most
once in total. -/
theorem c3_upload_idempotent {T : Type} [DecidableEq T] (s : GpuBufferStage T) :
    s.upload.upload = s.upload ∧
    s.upload.upload.writeCount = s.upload.writeCount ∧
    s.upload.writeCount ≤ s.writeCount + 1 := by
  by_cases hc : s.lastUploaded = some s.staging
  · refine ⟨?_, ?_, ?_⟩ <;> simp [GpuBufferStage.upload, hc]
  · refine ⟨?_, ?_, ?_⟩ <;> simp [GpuBufferStage.upload, hc]

/-- C3 witness: the idempotence theorem at a concrete never-uploaded
stage. -/
theorem c3_upload_idempotent_witness :
    stageEx.upload.upload = stageEx.upload ∧
    stageEx.upload.upload.writeCount = stageEx.upload.writeCount ∧
    stageEx.upload.writeCount ≤ stageEx.writeCount + 1 :=
  c3_upload_idempotent stageEx

/-- C1 counterexample: running prepare_bind_groups in a frame where the
material bind group is not yet prepared and the referenced texture is not
yet resident crashes the program: the as_bind_group retry error is
unwrapped with expect("failed to prepare bind group"). No recoverable
skip-and-retry happens. -/
theorem c1_unready_texture_counterexample :
    prepareBindGroups ⟨false, true, none, none, 0, 0⟩ =
      PanicOr.panic "failed to prepare bind group" := rfl

/-- C1 (amended): whenever the bind-group preparation phase runs with no
prepared material bind group and the referenced texture not yet resident,
as_bind_group returns its retry-next-frame error and prepare_bind_groups
panics through expect: no prepared bind group is produced and there is no
recoverable skip of the pass or automatic retry on a later frame. -/
theorem c1_unready_texture_panics (s : RenderState)
    (hm : s.preparedMaterial = none) (ht : s.textureResident = false) :
    prepareBindGroups s = PanicOr.panic "failed to prepare bind group" := by
  simp [prepareBindGroups, asBindGroup, hm, ht]

/-- C1 witness: the amended theorem at a concrete fresh state with an
unready texture. -/
theorem c1_unready_texture_panics_witness :
    prepareBindGroups ⟨false, false, none, none, 3, 4⟩ =
      PanicOr.panic "failed to prepare bind group" :=
  c1_unready_texture_panics ⟨false, false, none, none, 3, 4⟩ rfl rfl

/-- C5: with the texture resident and the camera uniform written, one run
of prepare_bind_groups constructs the material (and camera) bind group
exactly when the corresponding prepared resource is absent, leaves an
already-prepared resource untouched with no rebuild, and reaches a state
that further runs map to themselves - so once a prepared bind group
exists it is never rebuilt on any later frame (the program has no
invalidation path). -/
theorem c5_bind_group_cached_once (s s' : RenderState)
    (h1 : s.textureResident = true) (h2 : s.cameraBufferReady = true)
    (hrun : prepareBindGroups s = .ok s') :
    (s.preparedMaterial = none →
      s'.preparedMaterial = some .group ∧
      s'.materialBuildCount = s.materialBuildCount + 1) ∧
    (∀ bg, s.preparedMaterial = some bg →
      s'.preparedMaterial = some bg ∧
      s'.materialBuildCount = s.materialBuildCount) ∧
    (s.preparedCamera = none →
      s'.preparedCamera = some .group ∧
      s'.cameraBuildCount = s.cameraBuildCount + 1) ∧
    (∀ bg, s.preparedCamera = some bg →
      s'.preparedCamera = some bg ∧
      s'.cameraBuildCount = s.cameraBuildCount) ∧
    prepareBindGroups s' = .ok s' := by
  cases hm : s.preparedMaterial <;> cases hcam : s.preparedCamera <;>
    simp [prepareBindGroups, asBindGroup, cameraBindGroup, h1, h2, hm, hcam] at hrun <;>
    subst hrun <;>
    simp [prepareBindGroups, asBindGroup, cameraBindGroup, h1, h2, hm, hcam]

/-- C5 witness: a fresh state builds both bind groups once and the
resulting state is a fixed point of prepare_bind_groups. -/
theorem c5_bind_group_cached_once_witness :
    prepareBindGroups ⟨true, true, some .group, some .group, 1, 1⟩ =
      .ok ⟨true, true, some .group, some .group, 1, 1⟩ :=
  (c5_bind_group_cached_once ⟨true, true, none, none, 0, 0⟩
    ⟨true, true, some .group, some .group, 1, 1⟩ rfl rfl rfl).2.2.2.2

/-- C8 counterexample: tutorial2's surface node clears with the constant
blue 0.3, not (W - x)/W: at a 100 x 100 window with the cursor at (0, 0)
the claim demands blue = (100 - 0)/100 = 1, but the computed clear color
has blue = 3/10. -/
theorem c8_clear_color_counterexample :
    (surfaceNodeRun2 (0, 0) [⟨true, 100, 100⟩]).map Color.b = [3 / 10] ∧
    ((3 : ℚ) / 10) ≠ ((100 : ℚ) - 0) / 100 :=
  ⟨by with_unfolding_all rfl, by norm_num⟩

/-- C8 (amended): for every window of size W x H (W, H positive) and
cursor position (x, y) with 0 <= x <= W and 0 <= y <= H, the clear color
has red x/W and green y/H in both tutorial stages; blue is (W - x)/W in
tutorial9's surface node but the constant 0.3 in tutorial2's; at the
corners, tutorial9 clears with (0, 0, 1) at (0, 0) and (1, 1, 0) at
(W, H). -/
theorem c8_clear_color (mouseX mouseY : ℚ) (width height : ℕ)
    (hw : 0 < width) (hh : 0 < height)
    (hx0 : 0 ≤ mouseX) (hxw : mouseX ≤ (width : ℚ))
    (hy0 : 0 ≤ mouseY) (hyh : mouseY ≤ (height : ℚ)) :
    clearColor9 mouseX mouseY width height =
      ⟨mouseX / (width : ℚ), mouseY / (height : ℚ),
       ((width : ℚ) - mouseX) / (width : ℚ), 1⟩ ∧
    clearColor2 mouseX mouseY width height =
      ⟨mouseX / (width : ℚ), mouseY / (height : ℚ), 3 / 10, 1⟩ ∧
    clearColor9 0 0 width height = ⟨0, 0, 1, 1⟩ ∧
    clearColor9 (width : ℚ) (height : ℚ) width height = ⟨1, 1, 0, 1⟩ := by
  have hw' : ((width : ℚ)) ≠ 0 := Nat.cast_ne_zero.mpr hw.ne'
  have hh' : ((height : ℚ)) ≠ 0 := Nat.cast_ne_zero.mpr hh.ne'
  refine ⟨rfl, rfl, ?_, ?_⟩
  · simp [clearColor9, Color.mk.injEq, sub_zero, zero_div, div_self hw']
  · simp [clearColor9, Color.mk.injEq, sub_self, zero_div, div_self hw', div_self hh']

/-- C8 witness: the amended theorem at cursor (1, 2) in a 2 x 4 window:
tutorial2's clear color keeps red 1/2 and green 2/4 but blue 3/10. -/
theorem c8_clear_color_witness :
    clearColor2 1 2 2 4 =
      ⟨1 / ((2 : ℕ) : ℚ), 2 / ((4 : ℕ) : ℚ), 3 / 10, 1⟩ :=
  (c8_clear_color 1 2 2 4 (by norm_num) (by norm_num) (by norm_num)
    (by norm_num) (by norm_num) (by norm_num)).2.1

/-- C2 counterexample: a frame that binds the sole per-mesh instance
buffer before any upload has populated its device buffer crashes: the
surface node's buffer().expect("buffer was not set") panics instead of
skipping the pass, so the unready-buffer condition is fatal to the
program. -/
theorem c2_unready_buffer_counterexample :
    surfaceNodeRun worldUnreadyInstanceBuffer = PanicOr.panic "buffer was not set" := by
  with_unfolding_all rfl

/-- C2 (amended): whenever the surface node reaches its draw path (an
instance-buffer entry is selected, its GPU mesh is prepared, a window has
a view and the pipeline is compiled) while the vertex, instance, or index
buffer has not been uploaded to the device, the node panics with
"buffer was not set": the pass is not skipped and the failure is fatal,
not recovered. -/
theorem c2_unready_buffer_panics (w : SurfaceWorld) (mh : Handle)
    (ib : RawBuffer InstanceRaw) (gpu : ApplierGpuMesh)
    (win : Window) (rest : List Window)
    (hlast : w.instanceBuffers.getLast? = some (mh, ib))
    (hasset : findVal w.renderAssets mh = some gpu)
    (hwin : w.windows = win :: rest)
    (hview : win.hasView = true) (hpipe : w.pipelineReady = true)
    (hbuf : gpu.vertexBuffer.buffer = none ∨ ib.buffer = none ∨
            gpu.indexBuffer.buffer = none) :
    surfaceNodeRun w = PanicOr.panic "buffer was not set" := by
  unfold surfaceNodeRun
  simp only [hlast, hasset, hwin, hpipe]
  rcases hbuf with h | h | h
  · simp [runWindows, hview, h]
  · cases hv : gpu.vertexBuffer.buffer <;> simp [runWindows, hview, hv, h]
  · cases hv : gpu.vertexBuffer.buffer <;> cases hi : ib.buffer <;>
      simp [runWindows, hview, hv, hi, h]

/-- C2 witness: the amended theorem at a frame whose mesh vertex buffer
was never uploaded. -/
theorem c2_unready_buffer_panics_witness :
    surfaceNodeRun worldUnreadyVertexBuffer = PanicOr.panic "buffer was not set" :=
  c2_unready_buffer_panics worldUnreadyVertexBuffer 7 ⟨[rawEx], some [rawEx]⟩
    ⟨⟨[vertexEx], none⟩, ⟨[0, 1, 2], some [0, 1, 2]⟩⟩ ⟨true, 8, 6⟩ []
    rfl rfl rfl rfl rfl (Or.inl rfl)

/-- Helper: the window loop of the surface node maps a list of viewless
windows to a successful empty pass list. -/
theorem runWindows_no_views (mouse : ℚ × ℚ) (pr : Bool) (mh : Handle)
    (gpu : ApplierGpuMesh) (ib : RawBuffer InstanceRaw) :
    ∀ windows : List Window, (∀ win ∈ windows, win.hasView = false) →
      runWindows mouse pr mh gpu ib windows = .ok []
  | [], _ => rfl
  | win :: rest, h => by
    have hw : win.hasView = false := h win (List.mem_cons_self _ _)
    have hr := runWindows_no_views mouse pr mh gpu ib rest
      (fun x hx => h x (List.mem_cons_of_mem _ hx))
    simp [runWindows, hw, hr]

/-- C9: when no window of the frame has a swap-chain view, the surface
node skips every surface and still returns success with nothing drawn;
and the execute node always invokes the subgraph with an empty input list
and no view entity, returning exactly what the subgraph run returns, so
any subgraph failure propagates upward. -/
theorem c9_viewless_surface_skipped (w : SurfaceWorld)
    (hnoview : ∀ win ∈ w.windows, win.hasView = false) :
    surfaceNodeRun w = .ok [] ∧
    ∀ runSub : SubgraphCall → Except NodeRunError Unit,
      executeNodeRun runSub = runSub ⟨"ApplierSubgraph", [], none⟩ := by
  constructor
  · unfold surfaceNodeRun
    split
    · rfl
    · split
      · rfl
      · exact runWindows_no_views _ _ _ _ _ _ hnoview
  · intro runSub
    unfold executeNodeRun
    cases h : runSub ⟨"ApplierSubgraph", [], none⟩ with
    | error e => rfl
    | ok u => cases u; rfl

/-- C9 witness: a frame whose two windows are both viewless completes with
nothing drawn, and the execute node forwards the failure of a failing
subgraph runner invoked with empty inputs. -/
theorem c9_viewless_surface_skipped_witness :
    surfaceNodeRun worldNoViews = .ok [] ∧
    executeNodeRun subgraphRunEx = subgraphRunEx ⟨"ApplierSubgraph", [], none⟩ :=
  ⟨(c9_viewless_surface_skipped worldNoViews (by decide)).1,
   (c9_viewless_surface_skipped worldNoViews (by decide)).2 subgraphRunEx⟩

/-- Helper: every draw call issued by the window loop targets the single
mesh handle the loop was invoked with. -/
theorem runWindows_draws_mesh (mouse : ℚ × ℚ) (pr : Bool) (mh : Handle)
    (gpu : ApplierGpuMesh) (ib : RawBuffer InstanceRaw) :
    ∀ (windows : List Window) (ps : List Pass),
      runWindows mouse pr mh gpu ib windows = .ok ps →
      ∀ p ∈ ps, ∀ d : DrawCall, p.draw = some d → d.meshHandle = mh := by
  intro windows
  induction windows with
  | nil =>
    intro ps hps p hp d _
    simp only [runWindows, PanicOr.ok.injEq] at hps
    subst hps
    simp at hp
  | cons win rest ih =>
    intro ps hps p hp d hd
    simp only [runWindows] at hps
    by_cases hv : win.hasView = true
    · rw [if_pos hv] at hps
      by_cases hpr : pr = true
      · rw [if_pos hpr] at hps
        rcases hvb : gpu.vertexBuffer.buffer with _ | vb <;> rw [hvb] at hps
        · simp at hps
        · rcases hib : ib.buffer with _ | ibv <;> rw [hib] at hps
          · simp at hps
          · rcases hxb : gpu.indexBuffer.buffer with _ | xb <;> rw [hxb] at hps
            · simp at hps
            · rcases hrec : runWindows mouse pr mh gpu ib rest with msg | ps' <;>
                rw [hrec] at hps
              · simp at hps
              · simp only [PanicOr.ok.injEq] at hps
                subst hps
                rcases List.mem_cons.mp hp with rfl | hp'
                · have hde := Option.some.inj hd
                  subst hde
                  rfl
                · exact ih ps' hrec p hp' d hd
      · rw [if_neg hpr] at hps
        rcases hrec : runWindows mouse pr mh gpu ib rest with msg | ps' <;>
          rw [hrec] at hps
        · simp at hps
        · simp only [PanicOr.ok.injEq] at hps
          subst hps
          rcases List.mem_cons.mp hp with rfl | hp'
          · simp at hd
          · exact ih ps' hrec p hp' d hd
    · rw [if_neg hv] at hps
      exact ih ps hps p hp d hd

/-- Helper: a key check is unaffected by rewriting a stored value. -/
theorem containsKey_modifyFirst {α : Type} (h k : Handle) (f : α → α) :
    ∀ m : List (Handle × α), containsKey (modifyFirst m k f) h = containsKey m h
  | [] => rfl
  | (k', v) :: rest => by
    by_cases hk : k' = k
    · simp [modifyFirst, containsKey, hk]
    · simp only [modifyFirst, if_neg hk, containsKey, List.any_cons]
      have := containsKey_modifyFirst h k f rest
      simp only [containsKey] at this
      rw [this]

/-- Helper: a key check distributes over list append. -/
theorem containsKey_append {α : Type} (m l : List (Handle × α)) (h : Handle) :
    containsKey (m ++ l) h = (containsKey m h || containsKey l h) := by
  simp [containsKey, List.any_append]

/-- Helper: one iteration of the prepare_buffers mesh loop never removes
an existing key. -/
theorem containsKey_prepareBuffersStep (bufs : List (Handle × RawBuffer InstanceRaw))
    (hi : Handle × List Instance) (hdl : Handle)
    (hb : containsKey bufs hdl = true) :
    containsKey (prepareBuffersStep bufs hi) hdl = true := by
  unfold prepareBuffersStep
  by_cases hc : containsKey bufs hi.1
  · simp only [hc, if_true, containsKey_modifyFirst]
    exact hb
  · simp only [hc, Bool.false_eq_true, if_false, containsKey_modifyFirst,
      containsKey_append, hb, Bool.true_or]

/-- Helper: prepare_buffers never removes an existing key, whatever this
frame's extracted mesh instances are. -/
theorem containsKey_prepareBuffers (hdl : Handle) :
    ∀ (mi : List (Handle × List Instance)) (ib : List (Handle × RawBuffer InstanceRaw)),
      containsKey ib hdl = true → containsKey (prepareBuffers mi ib) hdl = true
  | [], _, hb => hb
  | hi :: rest, ib, hb =>
    containsKey_prepareBuffers hdl rest (prepareBuffersStep ib hi)
      (containsKey_prepareBuffersStep ib hi hdl hb)

/-- C10: every draw call of a successful surface-node frame targets the
mesh handle of the LAST entry of the instance-buffer map iteration, so at
most one mesh is drawn per frame and, when instances exist for more than
one mesh handle, all but the last map entry are silently not drawn; and a
mesh handle once inserted into the per-mesh instance-buffer map survives
every later prepare_buffers run, even when no extracted instance
references it anymore. -/
theorem c10_last_mesh_only_and_handles_persist :
    (∀ (w : SurfaceWorld) (ps : List Pass) (p : Pass) (d : DrawCall),
        surfaceNodeRun w = .ok ps → p ∈ ps → p.draw = some d →
        w.instanceBuffers.getLast?.map Prod.fst = some d.meshHandle) ∧
    (∀ (mi : List (Handle × List Instance))
        (ib : List (Handle × RawBuffer InstanceRaw)) (hdl : Handle),
        containsKey ib hdl = true → containsKey (prepareBuffers mi ib) hdl = true) := by
  constructor
  · intro w ps p d hrun hp hd
    unfold surfaceNodeRun at hrun
    cases hlast : w.instanceBuffers.getLast? with
    | none =>
      rw [hlast] at hrun
      simp at hrun
      subst hrun
      simp at hp
    | some entry =>
      obtain ⟨mh, ib⟩ := entry
      rw [hlast] at hrun
      simp only at hrun
      cases hasset : findVal w.renderAssets mh with
      | none =>
        rw [hasset] at hrun
        simp at hrun
        subst hrun
        simp at hp
      | some gpu =>
        rw [hasset] at hrun
        simp only at hrun
        have := runWindows_draws_mesh w.mousePosition w.pipelineReady mh gpu ib
          w.windows ps hrun p hp d hd
        simp [this]
  · intro mi ib hdl hb
    exact containsKey_prepareBuffers hdl mi ib hb

/-- C10 witness: in a frame with instance buffers for meshes 1 and 2 the
sole draw targets mesh 2, the last map entry; and a key inserted into the
buffer map survives a prepare_buffers run with no extracted instances. -/
theorem c10_last_mesh_only_and_handles_persist_witness :
    worldTwoMeshes.instanceBuffers.getLast?.map Prod.fst = some 2 ∧
    containsKey (prepareBuffers [] [(5, RawBuffer.empty)]) 5 = true :=
  ⟨c10_last_mesh_only_and_handles_persist.1 worldTwoMeshes
      [⟨⟨0, 0, 1, 1⟩, some ⟨2, 3, 2⟩⟩] ⟨⟨0, 0, 1, 1⟩, some ⟨2, 3, 2⟩⟩ ⟨2, 3, 2⟩
      (by with_unfolding_all rfl) (List.mem_singleton.mpr rfl) rfl,
   c10_last_mesh_only_and_handles_persist.2 [] [(5, RawBuffer.empty)] 5 rfl⟩

/-- Helper: looking up a key after rewriting the value stored under a
(possibly different) key. -/
theorem findVal_modifyFirst {α : Type} (h k : Handle) (f : α → α) :
    ∀ m : List (Handle × α),
      findVal (modifyFirst m k f) h =
        if k = h then (findVal m h).map f else findVal m h
  | [] => by simp [modifyFirst, findVal]
  | (k', v) :: rest => by
    by_cases hk : k' = k
    · subst hk
      by_cases hh : k' = h
      · subst hh
        simp [modifyFirst, findVal]
      · simp [modifyFirst, findVal, hh]
    · by_cases hh : k' = h
      · subst hh
        have hkk : ¬k = k' := fun hkk => hk hkk.symm
        simp [modifyFirst, findVal, hk, hkk]
      · simp [modifyFirst, findVal, hk, hh, findVal_modifyFirst h k f rest]

/-- Helper: a key is contained exactly when its lookup succeeds. -/
theorem containsKey_eq_isSome {α : Type} (h : Handle) :
    ∀ m : List (Handle × α), containsKey m h = (findVal m h).isSome
  | [] => rfl
  | (k, v) :: rest => by
    by_cases hk : k = h
    · simp [containsKey, findVal, hk]
    · have := containsKey_eq_isSome h (m := rest)
      simp only [containsKey] at this
      simp [containsKey, findVal, hk, this]

/-- Helper: lookup in an appended list falls through to the right part
exactly when the left part lacks the key. -/
theorem findVal_append {α : Type} (h : Handle) :
    ∀ m l : List (Handle × α),
      findVal (m ++ l) h = if (findVal m h).isSome then findVal m h else findVal l h
  | [], l => by simp [findVal]
  | (k, v) :: rest, l => by
    by_cases hk : k = h
    · simp [findVal, hk]
    · simp [findVal, hk, findVal_append h rest l]

/-- Helper: one extraction iteration appends this entity's instance to
exactly the list grouped under its mesh handle and no other. -/
theorem instsOf_extractStep (m : List (Handle × List Instance)) (e : Handle × Transform)
    (h : Handle) :
    instsOf (extractStep m e) h =
      if e.1 = h then instsOf m h ++ [mkExtractedInstance e.2] else instsOf m h := by
  unfold extractStep instsOf
  rw [findVal_modifyFirst]
  by_cases hc : containsKey m e.1
  · rw [if_pos hc]
    by_cases he : e.1 = h
    · rw [if_pos he, if_pos he]
      have hs : (findVal m h).isSome := by
        rw [← containsKey_eq_isSome, ← he]
        exact hc
      obtain ⟨v, hv⟩ := Option.isSome_iff_exists.mp hs
      rw [hv]
      rfl
    · rw [if_neg he, if_neg he]
  · rw [if_neg hc]
    by_cases he : e.1 = h
    · subst he
      rw [if_pos rfl, if_pos rfl]
      have hnone : findVal m e.1 = none := by
        cases hf : findVal m e.1 with
        | none => rfl
        | some v =>
          have hs := containsKey_eq_isSome e.1 m
          rw [hf] at hs
          simp at hs
          exact absurd hs hc
      rw [findVal_append, hnone]
      simp [findVal]
    · rw [if_neg he, if_neg he, findVal_append]
      cases hfm : findVal m h with
      | none => simp [findVal, he, hfm]
      | some v => simp [findVal, he, hfm]

/-- Helper: appending one instance under a present key grows the total
instance count by exactly one. -/
theorem totalInstances_modifyFirst_append (x : Instance) (k : Handle) :
    ∀ m : List (Handle × List Instance), containsKey m k = true →
      totalInstances (modifyFirst m k (fun v => v ++ [x])) = totalInstances m + 1
  | [], h => by simp [containsKey] at h
  | (k', v) :: rest, h => by
    by_cases hk : k' = k
    · simp [modifyFirst, hk, totalInstances]
      omega
    · have h' : containsKey rest k = true := by
        simp [containsKey, hk] at h
        simpa [containsKey] using h
      have ih := totalInstances_modifyFirst_append x k rest h'
      simp only [totalInstances, List.map_cons, List.sum_cons] at ih ⊢
      simp only [modifyFirst, if_neg hk, List.map_cons, List.sum_cons]
      omega

/-- Helper: inserting an empty list under a fresh key keeps the total
instance count unchanged. -/
theorem totalInstances_append_empty (m : List (Handle × List Instance)) (k : Handle) :
    totalInstances (m ++ [(k, [])]) = totalInstances m := by
  simp [totalInstances]

/-- Helper: each extraction iteration adds exactly one instance in
total. -/
theorem totalInstances_extractStep (m : List (Handle × List Instance))
    (e : Handle × Transform) :
    totalInstances (extractStep m e) = totalInstances m + 1 := by
  unfold extractStep
  by_cases hc : containsKey m e.1
  · rw [if_pos hc, totalInstances_modifyFirst_append _ _ m hc]
  · rw [if_neg hc]
    have hck : containsKey (m ++ [(e.1, [])]) e.1 = true := by
      simp [containsKey_append, containsKey]
    rw [totalInstances_modifyFirst_append _ _ _ hck, totalInstances_append_empty]

/-- Helper: folding N entities through the extraction loop adds exactly N
instances in total. -/
theorem totalInstances_foldl :
    ∀ (es : List (Handle × Transform)) (m : List (Handle × List Instance)),
      totalInstances (es.foldl extractStep m) = totalInstances m + es.length
  | [], m => by simp
  | e :: rest, m => by
    simp only [List.foldl_cons, totalInstances_foldl rest (extractStep m e),
      totalInstances_extractStep, List.length_cons]
    omega

/-- Helper: after folding the entities through the extraction loop, the
list grouped under a handle holds exactly the instances of the entities
carrying that handle, in order. -/
theorem instsOf_foldl (h : Handle) :
    ∀ (es : List (Handle × Transform)) (m : List (Handle × List Instance)),
      instsOf (es.foldl extractStep m) h =
        instsOf m h ++
          (es.filter (fun e => decide (e.1 = h))).map (fun e => mkExtractedInstance e.2)
  | [], m => by simp
  | e :: rest, m => by
    simp only [List.foldl_cons, instsOf_foldl h rest (extractStep m e),
      instsOf_extractStep, List.filter_cons]
    by_cases he : e.1 = h
    · simp [he]
    · simp [he]

/-- C6 counterexample: a frame that extracts zero entities still draws
when a per-mesh instance buffer survives from an earlier frame:
extraction yields the empty grouping, prepare_buffers leaves the stale
buffer of mesh 0 untouched, and the surface node then issues a draw of
one stale instance, so an N = 0 frame is not guaranteed to draw
nothing. -/
theorem c6_stale_buffer_draw_counterexample :
    extractMeshEntities [] = [] ∧
    surfaceNodeRun worldEmptyFrameStale = .ok [⟨⟨0, 0, 1, 1⟩, some ⟨0, 3, 1⟩⟩] :=
  ⟨rfl, by with_unfolding_all rfl⟩

/-- C6 (amended): for every set of N entities carrying a mesh handle and
a transform, extraction produces per-mesh lists with exactly N instances
in total, the list grouped under each handle being exactly the instances
of the entities carrying that handle with nothing lost or duplicated; a
frame whose per-mesh instance-buffer map is empty (e.g. the first frame,
before any entity existed) draws nothing, but an N = 0 frame can still
draw stale instances if a buffer persists from an earlier frame (see the
counterexample). -/
theorem c6_extraction_round_trip (entities : List (Handle × Transform)) (h : Handle) :
    totalInstances (extractMeshEntities entities) = entities.length ∧
    instsOf (extractMeshEntities entities) h =
      (entities.filter (fun e => decide (e.1 = h))).map
        (fun e => mkExtractedInstance e.2) ∧
    ∀ w : SurfaceWorld, w.instanceBuffers = [] → surfaceNodeRun w = .ok [] := by
  refine ⟨?_, ?_, ?_⟩
  · have := totalInstances_foldl entities []
    simpa [extractMeshEntities, totalInstances] using this
  · have := instsOf_foldl h entities []
    simpa [extractMeshEntities, instsOf, findVal] using this
  · intro w hw
    unfold surfaceNodeRun
    rw [hw]
    rfl

/-- C6 witness: the round-trip theorem at three concrete entities over
two meshes, and the empty-map frame drawing nothing. -/
theorem c6_extraction_round_trip_witness :
    totalInstances (extractMeshEntities entitiesEx) = entitiesEx.length ∧
    instsOf (extractMeshEntities entitiesEx) 0 =
      (entitiesEx.filter (fun e => decide (e.1 = 0))).map
        (fun e => mkExtractedInstance e.2) ∧
    surfaceNodeRun ⟨[⟨true, 4, 4⟩], (1, 1), true, [], []⟩ = .ok [] :=
  ⟨(c6_extraction_round_trip entitiesEx 0).1,
   (c6_extraction_round_trip entitiesEx 0).2.1,
   (c6_extraction_round_trip entitiesEx 0).2.2 ⟨[⟨true, 4, 4⟩], (1, 1), true, [], []⟩ rfl⟩

/-- C7: every unreadable stream, every stream tobj fails to parse, and
every stream parsed to no geometry at all produces exactly the single
ApplierMeshLoaderError::Failed - no panic and no partially-populated
mesh; and the loader's result depends only on the FIRST parsed sub-mesh:
whatever follows it is ignored. -/
theorem c7_mesh_loader_single_failure (input : LoadInput)
    (h : input = .unreadable ∨ input = .parseError ∨ input = .parsed []) :
    ApplierMeshLoader.load input = .ok (.error .Failed) ∧
    ∀ (m : TobjModel) (rest rest' : List TobjModel),
      ApplierMeshLoader.load (.parsed (m :: rest)) =
        ApplierMeshLoader.load (.parsed (m :: rest')) := by
  refine ⟨?_, fun m rest rest' => rfl⟩
  rcases h with rfl | rfl | rfl <;> rfl

/-- C7 witness: a parse failure yields the single Failed error, and a
two-model parse loads the same mesh as the parse holding only its first
model. -/
theorem c7_mesh_loader_single_failure_witness :
    ApplierMeshLoader.load .parseError = .ok (.error .Failed) ∧
    ApplierMeshLoader.load (.parsed [⟨⟨[0, 0, 0], [0, 0], [0]⟩⟩, ⟨⟨[], [], []⟩⟩]) =
      ApplierMeshLoader.load (.parsed [⟨⟨[0, 0, 0], [0, 0], [0]⟩⟩]) :=
  ⟨(c7_mesh_loader_single_failure .parseError (Or.inr (Or.inl rfl))).1,
   (c7_mesh_loader_single_failure .parseError (Or.inr (Or.inl rfl))).2
     ⟨⟨[0, 0, 0], [0, 0], [0]⟩⟩ [⟨⟨[], [], []⟩⟩] []⟩

end Applier
